import Mathlib

/-!
# cf-ddns: a shallow embedding of `main.go`

`main.go` is one linear procedure: load the configuration, ask ipify.org for the
public IP, pick the auth header, list the A record at Cloudflare, compare, and
PATCH the record when the address changed.

The embedding makes the outside world explicit.  A `World` fixes the outcome of
every call that leaves the program (`LoadConfig`, `http.Get`, `client.Do`,
`json.Unmarshal`, `json.MarshalIndent`); `main` is then a pure function from a
`World` to the list of observable events and the way the process ends.

Go strings are modelled by Lean strings, Go `int` by `Int` (no arithmetic is
performed on them, only `Count < 1` and `StatusCode != 200`).
-/

namespace CfDdns

/-! ## Data model (lines 15-73) -/

/-- A decoded `interface{}` value, as `encoding/json` produces it: `nil`, `bool`,
`float64` (finite, written `mantissa * 2 ^ exponent`), `string`, `[]interface{}`
and `map[string]interface{}`. -/
inductive JsonValue where
  | null
  | bool (b : Bool)
  | number (mantissa exponent : Int)
  | string (s : String)
  | array (items : List JsonValue)
  | object (fields : List (String × JsonValue))

/-- Go struct `Meta`. -/
structure Meta where
  AutoAdded : Bool
  ManagedByApps : Bool
  ManagedByArgoTunnel : Bool
  Source : String
deriving DecidableEq

/-- Go struct `Result`: one DNS record as the provider reports it (`Type_` is the
field `Type`, a reserved word here). -/
structure Result where
  ID : String
  ZoneID : String
  ZoneName : String
  Name : String
  Type_ : String
  Content : String
  Proxiable : Bool
  Proxied : Bool
  TTL : Int
  Locked : Bool
  Meta : Meta
deriving DecidableEq

/-- Go struct `ResultInfo`. -/
structure ResultInfo where
  Page : Int
  PerPage : Int
  Count : Int
  TotalCount : Int
  TotalPages : Int
deriving DecidableEq

/-- Go struct `APIResponse`: the envelope of the record listing. -/
structure APIResponse where
  Result : List Result
  Success : Bool
  Errors : List JsonValue
  Messages : List JsonValue
  ResultInfo : ResultInfo

/-- Go struct `UpdateResponse`: the envelope of the single-record update. -/
structure UpdateResponse where
  Result : Result
  Success : Bool
  Errors : List JsonValue
  Messages : List JsonValue
  ResultInfo : ResultInfo

/-- Go struct `Config`. -/
structure Config where
  AuthEmail : String
  AuthMethod : String
  AuthKey : String
  ZoneIdentifier : String
  RecordName : String
  Ttl : String
  Proxy : Bool
  Sitename : String
  Verbose : Bool
deriving DecidableEq

/-! ## The HTTP library, as far as `main` uses it -/

/-- A value stored in the `map[string]any` payload of line 199: the program only
stores strings and one boolean. -/
inductive Any where
  | str (s : String)
  | bool (b : Bool)
deriving DecidableEq

/-- The `map[string]any` literal of lines 199-205, as key/value pairs with
distinct keys.  `json.Marshal` writes the pairs of a map sorted by key; the
order of the pairs carries no meaning. -/
abbrev Payload := List (String × Any)

/-- Value stored under a key of a payload. -/
def Payload.get? (p : Payload) (key : String) : Option Any :=
  (p.find? (fun kv => kv.1 == key)).map (fun kv => kv.2)

/-- Type `http.Header`, keyed by canonical header name, one value per name (the
program only calls `Set`). -/
abbrev Header := List (String × String)

/-- Method `Header.Set`: replaces whatever is stored under the key.  Every key the
program passes ("X-Auth-Email", "Content-Type", "X-Auth-Key", "Authorization")
is already in canonical MIME form, so the canonicalisation `Set` performs is
the identity on them. -/
def Header.Set (h : Header) (key value : String) : Header :=
  h.filter (fun kv => kv.1 != key) ++ [(key, value)]

/-- Value stored under a header name, `none` when the header is absent. -/
def Header.get? (h : Header) (key : String) : Option String :=
  (h.find? (fun kv => kv.1 == key)).map (fun kv => kv.2)

/-- A `*url.URL` as `url.Parse` returns it, named by the string it was parsed
from.  `url.Parse` is a function, so URLs parsed from the same string are the
same URL.  The string is the argument of `http.NewRequest`, not the text the
URL renders to: rendering escapes the path again, so a URL parsed from a
string ending in "/a b" is sent as "/a%20b". -/
structure URL where
  parsedFrom : String
deriving DecidableEq

/-- What the program fixes of an `*http.Request`.  `URL` is the result of
`url.Parse` on the string given to `http.NewRequest`; `Body` is the object
whose `json.Marshal` encoding is sent (`none` for a `nil` body). -/
structure Request where
  Method : String
  URL : URL
  Header : Header
  Body : Option Payload
deriving DecidableEq

/-- What the program reads of an `*http.Response`: the status code and the
result of `io.ReadAll(resp.Body)`, which is the bytes read and possibly an
error. -/
structure Response where
  StatusCode : Int
  Body : String
  ReadErr : Option String
deriving DecidableEq

/-- The pair `(*http.Response, error)` returned by `http.Get` and `client.Do`.
Without an error the response is non-nil; with an error the response is nil,
except when following redirects fails, where both are non-nil. -/
inductive HttpResult where
  | ok (resp : Response)
  | failed (err : String)
  | failedWithResponse (resp : Response) (err : String)
deriving DecidableEq

/-- First component of the returned pair: `none` is the nil pointer. -/
def HttpResult.resp : HttpResult → Option Response
  | .ok r => some r
  | .failed _ => none
  | .failedWithResponse r _ => some r

/-- Second component of the returned pair: `none` is the nil error. -/
def HttpResult.err : HttpResult → Option String
  | .ok _ => none
  | .failed e => some e
  | .failedWithResponse _ e => some e

/-- Function `ishex` of `net/url`. -/
def ishex (c : Char) : Bool :=
  ('0' ≤ c && c ≤ '9') || ('a' ≤ c && c ≤ 'f') || ('A' ≤ c && c ≤ 'F')

/-- The check `unescape` of `net/url` makes in path and fragment mode: every
'%' is followed by two hexadecimal digits. -/
def validEscapes : List Char → Bool
  | [] => true
  | c :: rest =>
    if c = '%' then
      match rest with
      | a :: b :: tail => ishex a && ishex b && validEscapes tail
      | _ => false
    else validEscapes rest

/-- Function `stringContainsCTLByte` of `net/url`: a byte below 0x20 or equal to 0x7f. -/
def stringContainsCTLByte (s : List Char) : Bool :=
  s.any (fun c => c.toNat < 32 || c.toNat == 127)

/-- Function `strings.Cut` on a single-character separator, dropping the "found" flag. -/
def cut (sep : Char) : List Char → List Char × List Char
  | [] => ([], [])
  | c :: rest =>
    if c = sep then ([], rest)
    else let r := cut sep rest; (c :: r.1, r.2)

/-- Whether `url.Parse` accepts a URL, for the URLs this program builds.  All of
them start with the constant "https://api.cloudflare.com/client/v4/zones/", so
the scheme and the authority are fixed and valid; what is left of `url.Parse` is:
cut the fragment at the first '#'; reject a control byte before it; cut the
query at the first '?' (the query is kept raw, unchecked); reject a malformed
percent-escape in the path and in the fragment.  The scheme and host contain no
'%', so scanning everything before the query is the same as scanning the
path. -/
def urlParse (rawURL : String) : Bool :=
  let (u, frag) := cut '#' rawURL.toList
  let (rest, _) := cut '?' u
  !stringContainsCTLByte u && validEscapes rest && validEscapes frag

/-- Function `http.NewRequest`: a nil request (and an error, which `main` discards) when
`url.Parse` rejects the string; otherwise a request holding the parsed URL, no
header and the body.  The methods passed, "GET" and "PATCH", are valid. -/
def httpNewRequest (method url : String) (body : Option Payload) : Option Request :=
  if urlParse url then some ⟨method, ⟨url⟩, [], body⟩ else none

/-! ## The world outside the process -/

/-- The outcome of every call of `main` that leaves the process or that is
implemented by a library whose result the claims treat as given. -/
structure World where
  /-- Result of `LoadConfig(".")`: the configuration or viper's error. -/
  LoadConfig : Except String Config
  /-- Result of `http.Get(url)`. -/
  Get : String → HttpResult
  /-- Result of `client.Do(request)`. -/
  Do : Request → HttpResult
  /-- Result of `json.Unmarshal(bytes, &records)`. -/
  unmarshalAPIResponse : String → Except String APIResponse
  /-- Result of `json.Unmarshal(bytes, &updateResponse)`. -/
  unmarshalUpdateResponse : String → Except String UpdateResponse
  /-- Text `json.MarshalIndent` renders for a listing envelope. -/
  indentAPIResponse : APIResponse → String
  /-- Text `json.MarshalIndent` renders for an update envelope. -/
  indentUpdateResponse : UpdateResponse → String

/-! ## Processes: observable events and termination -/

/-- What a run does that can be observed from outside. -/
inductive Event where
  /-- Text handed to package `log` (standard error), after formatting. -/
  | log (msg : String)
  /-- Text written by `fmt.Printf` / `fmt.Println` (standard output). -/
  | print (msg : String)
  /-- Call of `http.Get` with this URL. -/
  | httpGet (url : String)
  /-- Call of `client.Do` with this request: the request counts as issued from
  here on, whatever the call returns. -/
  | clientDo (req : Request)
deriving DecidableEq

/-- How a process ends before `main` returns: `os.Exit(n)` (also through
`log.Fatal*`, which exits with 1), or a run-time panic. -/
inductive Exit where
  | code (n : Nat)
  | panic (reason : String)
deriving DecidableEq

/-- A computation inside `main`: the events so far, and either the value it
produced or the way the process ended. -/
structure Prog (α : Type) where
  trace : List Event
  result : Except Exit α

/-- A computation without effect. -/
def Prog.pure {α : Type} (a : α) : Prog α := ⟨[], .ok a⟩

/-- Sequencing: once the process has ended nothing more happens. -/
def Prog.bind {α β : Type} (m : Prog α) (f : α → Prog β) : Prog β :=
  match m.result with
  | .error e => ⟨m.trace, .error e⟩
  | .ok a => ⟨m.trace ++ (f a).trace, (f a).result⟩

instance : Monad Prog where
  pure := Prog.pure
  bind := Prog.bind

/-- Exit status of the process: `main` returning is status 0, `os.Exit(n)` is
`n`, and the Go runtime ends a panicking process with status 2. -/
def Prog.exitCode (p : Prog Unit) : Nat :=
  match p.result with
  | .ok _ => 0
  | .error (.code n) => n
  | .error (.panic _) => 2

/-- Record one event. -/
def emit (e : Event) : Prog Unit := ⟨[e], .ok ()⟩

/-- Call `os.Exit(n)`. -/
def osExit {α : Type} (n : Nat) : Prog α := ⟨[], .error (.code n)⟩

/-- A run-time panic that nothing recovers. -/
def goPanic {α : Type} (reason : String) : Prog α := ⟨[], .error (.panic reason)⟩

/-- Calls `log.Print`, `log.Printf`, `log.Println` with the formatted text. -/
def logPrint (msg : String) : Prog Unit := emit (.log msg)

/-- Calls `log.Fatal`, `log.Fatalf`: write the text, then `os.Exit(1)`. -/
def logFatal {α : Type} (msg : String) : Prog α := ⟨[.log msg], .error (.code 1)⟩

/-- Calls `fmt.Printf`, `fmt.Println` with the formatted text. -/
def fmtPrint (msg : String) : Prog Unit := emit (.print msg)

/-- Dereference of a pointer: the nil pointer panics. -/
def deref {α : Type} : Option α → Prog α
  | some a => Prog.pure a
  | none => goPanic "invalid memory address or nil pointer dereference"

/-- Indexing `xs[0]` of a slice: panics on the empty (or nil) slice. -/
def index0 {α : Type} : List α → Prog α
  | a :: _ => Prog.pure a
  | [] => goPanic "index out of range [0] with length 0"

/-- Verb `%v` applied to an `error`. -/
def fmtErr : Option String → String
  | some e => e
  | none => "<nil>"

/-- Call `http.Get(url)`. -/
def httpGet (w : World) (url : String) : Prog HttpResult :=
  ⟨[.httpGet url], .ok (w.Get url)⟩

/-- Call `request.Header.Set(key, value)` through the pointer `request`. -/
def headerSet (request : Option Request) (key value : String) : Prog (Option Request) :=
  match request with
  | none => goPanic "invalid memory address or nil pointer dereference"
  | some r => Prog.pure (some { r with Header := r.Header.Set key value })

/-- Call `client.Do(request)`. -/
def clientDo (w : World) (request : Option Request) : Prog HttpResult :=
  match request with
  | none => goPanic "invalid memory address or nil pointer dereference"
  | some r => ⟨[.clientDo r], .ok (w.Do r)⟩

/-- Call `json.Marshal(payload)` on the map of lines 199-205.  The encoder fails only
on values it cannot represent (channels, functions, NaN, cycles); a map of
strings and a boolean is always encoded, so the result is never an error. -/
def jsonMarshal (payload : Payload) : Except String Payload := .ok payload

/-- Call `json.MarshalIndent(v, "", "  ")` on an envelope just produced by
`json.Unmarshal`.  Such a value holds only strings, booleans, integers and
decoded `interface{}` values, all of which the encoder accepts, so the result
is never an error; `render` is the text. -/
def jsonMarshalIndent {α : Type} (render : α → String) (v : α) : Except String String :=
  .ok (render v)

/-! ## `main` (lines 92-251)

`main` is one Go function.  It is cut here at the comments that divide it in
the source; each piece is the statements between two of them, in order, and
`main` runs the pieces one after the other. -/

/-- Lines 94-97: load the configuration. -/
def loadConfig (w : World) : Prog Config :=
  match w.LoadConfig with
  | .error err => logFatal ("cannot load config:" ++ err)
  | .ok config => Prog.pure config

/-- Lines 99-113, "Try getting our Public IP". -/
def getPublicIP (w : World) : Prog String := do
  logPrint "Attempting to get our current IP address from ipify.org\n"
  let got ← httpGet w "https://api.ipify.org?format=text"
  let ip := got.resp
  let err := got.err
  -- `err != nil || ip.StatusCode != http.StatusOK`, evaluated left to right
  let failed ← (if err.isSome then Prog.pure true else do
    let r ← deref ip
    Prog.pure (r.StatusCode != 200))
  if failed then
    -- the arguments of `log.Fatalf` are evaluated first: `ip.StatusCode`
    let r ← deref ip
    logFatal ("Failed to fetch IP Address from ipify! \nStatusCode: "
      ++ toString r.StatusCode ++ " || err: " ++ fmtErr err ++ "\n")
  else
    let ipResp ← deref ip
    match ipResp.ReadErr with
    | some e => logFatal e
    | none =>
      let currentIP := ipResp.Body
      logPrint ("Our Current Public IP Address: " ++ currentIP)
      Prog.pure currentIP

/-- Lines 115-131, "Check and set the proper auth header based on auth method":
the pair `(auth_header, ifBearer)`. -/
def setAuthHeader (config : Config) : Prog (String × String) := do
  if config.Verbose then
    fmtPrint ("Auth Method: " ++ config.AuthMethod ++ "\n")
  if config.AuthMethod = "global" then
    Prog.pure ("X-Auth-Key", "")
  else if config.AuthMethod = "token" then
    Prog.pure ("Authorization", "Bearer ")
  else
    logFatal ("Failed to set Auth Header | Provided Auth Method: "
      ++ config.AuthMethod ++ "\n")

/-- Lines 141-143 and 214-216: the three `request.Header.Set` calls. -/
def setHeaders (config : Config) (auth : String × String) (request : Option Request) :
    Prog (Option Request) := do
  let request ← headerSet request "X-Auth-Email" config.AuthEmail
  let request ← headerSet request "Content-Type" "application/json"
  headerSet request auth.1 (auth.2 ++ config.AuthKey)

/-- Lines 133-164, "Fetch the current IP address set in Cloudflare" and
"Unmarshal response to APIResonse object". -/
def fetchRecords (w : World) (config : Config) (auth : String × String) :
    Prog APIResponse := do
  logPrint "Checking for A record\n"
  let endpoint := "https://api.cloudflare.com/client/v4/zones/" ++ config.ZoneIdentifier
    ++ "/dns_records?type=A&name=" ++ config.RecordName
  let request := httpNewRequest "GET" endpoint none
  let request ← setHeaders config auth request
  let done ← clientDo w request
  let response := done.resp
  match done.err with
  | some e => logFatal ("Failed to fetch records from cloudflare. \nError: " ++ e ++ "\n")
  | none =>
    let listResp ← deref response
    match listResp.ReadErr with
    | some e =>
      logFatal ("Something went wrong. Failed to read records. \nError: " ++ e ++ "\n")
    | none =>
      let recordBytes := listResp.Body
      match w.unmarshalAPIResponse recordBytes with
      | .error e => logFatal ("Failed to unmarshal JSON records. \nError: " ++ e ++ "\n")
      | .ok records => Prog.pure records

/-- Lines 166-182, "Check if the domain has an A record" and "If Verbose, pretty
print the response". -/
def checkRecords (w : World) (config : Config) (records : APIResponse) : Prog Unit := do
  fmtPrint ("Count of Records: " ++ toString records.ResultInfo.Count ++ "\n")
  if records.ResultInfo.Count < 1 then
    logFatal ("Records does not exist for " ++ config.Sitename ++ ". Try adding one first.")
  else
    if config.Verbose then
      match jsonMarshalIndent w.indentAPIResponse records with
      | .error e => logFatal ("Failed to pretty print response. \n Error: " ++ e)
      | .ok prettyJSON => fmtPrint (prettyJSON ++ "\n")
    logPrint "The number of records seems good. Moving on"

/-- Lines 184-192, "Extract existing A record for site from response" and
"Extract record identifier from response": the record identifier, unless the
address is unchanged and the process exits. -/
def extractRecord (currentIP : String) (records : APIResponse) : Prog String := do
  let first ← index0 records.Result
  let oldIP := first.Content
  if oldIP = currentIP then
    logPrint "Your public IP hasn't changed since last update. I will try again later\n"
    osExit 0
  else
    let first ← index0 records.Result
    Prog.pure first.ID

/-- Lines 194-222, "Change the A record in Cloudflare using the API": the
response of the PATCH. -/
def changeRecord (w : World) (config : Config) (auth : String × String)
    (currentIP recordIdentifier : String) : Prog Response := do
  let updateUrl := "https://api.cloudflare.com/client/v4/zones/" ++ config.ZoneIdentifier
    ++ "/dns_records/" ++ recordIdentifier
  let payload : Payload := [
    ("type", .str "A"),
    ("name", .str config.RecordName),
    ("content", .str currentIP),
    ("ttl", .str config.Ttl),
    ("proxied", .bool config.Proxy)]
  match jsonMarshal payload with
  | .error e => logFatal ("Failed to encode JSON data to update records: " ++ e ++ "\n")
  | .ok payloadBytes =>
    let request := httpNewRequest "PATCH" updateUrl (some payloadBytes)
    let request ← setHeaders config auth request
    let done ← clientDo w request
    let response := done.resp
    match done.err with
    | some e => logPrint ("Failed to update records in Cloudflare: " ++ e ++ "\n")
    | none => Prog.pure ()
    -- `defer response.Body.Close()` evaluates `response.Body` right here
    deref response

/-- Lines 224-250: decode the update envelope and report. -/
def reportUpdate (w : World) (config : Config) (recordIdentifier : String)
    (response : Response) : Prog Unit := do
  -- `recordBytes, _ = io.ReadAll(response.Body)`: the read error is dropped
  let recordBytes := response.Body
  match w.unmarshalUpdateResponse recordBytes with
  | .error e => logFatal ("Failed to unmarshal JSON records: " ++ e)
  | .ok updateResponse =>
    if config.Verbose then
      match jsonMarshalIndent w.indentUpdateResponse updateResponse with
      | .error e => logFatal ("Failed to pretty print response. \n Error: " ++ e)
      | .ok prettyJSON => fmtPrint ("New Records: " ++ prettyJSON ++ "\n")
    if updateResponse.Success then
      logPrint ("Successfully updated records for " ++ recordIdentifier ++ " ("
        ++ config.RecordName ++ "): " ++ updateResponse.Result.Content ++ "\n")
    else if !updateResponse.Success then
      logFatal ("Failed to update records for " ++ recordIdentifier ++ " ("
        ++ config.RecordName ++ ")\n")
    else
      Prog.pure ()

/-- The function `main` of `main.go`. -/
def main (w : World) : Prog Unit := do
  let config ← loadConfig w
  let currentIP ← getPublicIP w
  let auth ← setAuthHeader config
  let records ← fetchRecords w config auth
  checkRecords w config records
  let recordIdentifier ← extractRecord currentIP records
  let response ← changeRecord w config auth currentIP recordIdentifier
  reportUpdate w config recordIdentifier response

/-! ## Requests the program builds, written out -/

/-- The string `endpoint` of the record listing (lines 135-138). -/
def endpointOf (config : Config) : String :=
  "https://api.cloudflare.com/client/v4/zones/" ++ config.ZoneIdentifier
    ++ "/dns_records?type=A&name=" ++ config.RecordName

/-- The string `updateUrl` of the record update (lines 195-198). -/
def updateUrlOf (config : Config) (recordIdentifier : String) : String :=
  "https://api.cloudflare.com/client/v4/zones/" ++ config.ZoneIdentifier
    ++ "/dns_records/" ++ recordIdentifier

/-- The map of lines 199-205. -/
def payloadOf (config : Config) (currentIP : String) : Payload :=
  [("type", .str "A"), ("name", .str config.RecordName), ("content", .str currentIP),
   ("ttl", .str config.Ttl), ("proxied", .bool config.Proxy)]

/-- The headers after the three `Set` calls, for a pair `(auth_header, ifBearer)`. -/
def headersOf (config : Config) (auth : String × String) : Header :=
  Header.Set (Header.Set (Header.Set [] "X-Auth-Email" config.AuthEmail) "Content-Type"
    "application/json") auth.1 (auth.2 ++ config.AuthKey)

/-- The lookup request handed to `client.Do` at line 145. -/
def listRequest (config : Config) (auth : String × String) : Request :=
  ⟨"GET", ⟨endpointOf config⟩, headersOf config auth, none⟩

/-- The update request handed to `client.Do` at line 218. -/
def patchRequest (config : Config) (auth : String × String)
    (currentIP recordIdentifier : String) : Request :=
  ⟨"PATCH", ⟨updateUrlOf config recordIdentifier⟩, headersOf config auth,
    some (payloadOf config currentIP)⟩

/-- The pair `(auth_header, ifBearer)` lines 121-127 select for a supported
auth method. -/
def authOf (config : Config) : String × String :=
  if config.AuthMethod = "global" then ("X-Auth-Key", "") else ("Authorization", "Bearer ")

/-- The requests handed to `client.Do`, in order. -/
def requests : List Event → List Request
  | [] => []
  | .clientDo r :: es => r :: requests es
  | _ :: es => requests es

/-- The PATCH requests handed to `client.Do`, in order. -/
def patches (es : List Event) : List Request :=
  (requests es).filter (fun r => r.Method == "PATCH")

/-! ## Reaching the decoded lookup envelope -/

/-- The run reaches the decoding of the lookup envelope: the configuration
loads as `config`, ipify answers 200 with body `currentIP`, the auth method is
supported, the lookup request is built and answered without transport or read
error, and the answer decodes as `records`. -/
structure LookupDecodes (w : World) (config : Config) (currentIP : String)
    (records : APIResponse) : Prop where
  config_loads : w.LoadConfig = .ok config
  ip_found : w.Get "https://api.ipify.org?format=text" = .ok ⟨200, currentIP, none⟩
  auth_supported : config.AuthMethod = "global" ∨ config.AuthMethod = "token"
  endpoint_parses : urlParse (endpointOf config) = true
  envelope_decodes : ∃ resp, w.Do (listRequest config (authOf config)) = .ok resp ∧
    resp.ReadErr = none ∧ w.unmarshalAPIResponse resp.Body = .ok records

/-- Lines 166-250: what `main` does once the lookup envelope is decoded. -/
def afterLookup (w : World) (config : Config) (currentIP : String)
    (records : APIResponse) : Prog Unit :=
  Prog.bind (checkRecords w config records) (fun _ =>
  Prog.bind (extractRecord currentIP records) (fun recordIdentifier =>
  Prog.bind (changeRecord w config (authOf config) currentIP recordIdentifier)
    (fun response => reportUpdate w config recordIdentifier response)))

/-! ## Concrete runs -/

/-- A configuration as `app.env` gives it, for an auth method. -/
def sampleConfig (authMethod : String) : Config :=
  { AuthEmail := "admin@example.com", AuthMethod := authMethod, AuthKey := "k3y",
    ZoneIdentifier := "zone1", RecordName := "home.example.com", Ttl := "3600",
    Proxy := false, Sitename := "example.com", Verbose := false }

/-- An A record with the given identifier and content. -/
def sampleRecord (id content : String) : Result :=
  { ID := id, ZoneID := "zone1", ZoneName := "example.com", Name := "home.example.com",
    Type_ := "A", Content := content, Proxiable := true, Proxied := false, TTL := 3600,
    Locked := false, Meta := ⟨false, false, false, "primary"⟩ }

/-- A listing envelope with the given count and records. -/
def sampleRecords (count : Int) (result : List Result) : APIResponse :=
  { Result := result, Success := true, Errors := [], Messages := [],
    ResultInfo := ⟨1, 100, count, count, 1⟩ }

/-- An update envelope with the given success flag and record. -/
def sampleUpdate (success : Bool) (result : Result) : UpdateResponse :=
  { Result := result, Success := success, Errors := [], Messages := [],
    ResultInfo := ⟨0, 0, 0, 0, 0⟩ }

/-- A world: the configuration that loads, what ipify returns, what the lookup
GET and the update PATCH return, and what their bodies decode to. -/
def sampleWorld (config : Config) (ipify listing : HttpResult)
    (records : Except String APIResponse) (update : HttpResult)
    (updated : Except String UpdateResponse) : World :=
  { LoadConfig := .ok config
    Get := fun _ => ipify
    Do := fun r => if r.Method = "GET" then listing else update
    unmarshalAPIResponse := fun _ => records
    unmarshalUpdateResponse := fun _ => updated
    indentAPIResponse := fun _ => "listing"
    indentUpdateResponse := fun _ => "update" }

/-- The scenario of the spec: count 2, first record "abc" with content
"1.1.1.1", discovered IP "1.1.1.1". -/
def unchangedWorld : World :=
  sampleWorld (sampleConfig "global") (.ok ⟨200, "1.1.1.1", none⟩)
    (.ok ⟨200, "listing body", none⟩)
    (.ok (sampleRecords 2 [sampleRecord "abc" "1.1.1.1", sampleRecord "def" "2.2.2.2"]))
    (.failed "not called") (.error "not called")

/-- A run in which one record "abc" holds `oldIP`, ipify reports `newIP`, and
the PATCH returns `update`, whose body decodes to an envelope with the given
success flag. -/
def changedWorld (authMethod oldIP newIP : String) (update : HttpResult)
    (success : Bool) : World :=
  sampleWorld (sampleConfig authMethod) (.ok ⟨200, newIP, none⟩)
    (.ok ⟨200, "listing body", none⟩)
    (.ok (sampleRecords 1 [sampleRecord "abc" oldIP]))
    update (.ok (sampleUpdate success (sampleRecord "abc" newIP)))

/-- A listing that reports no record. -/
def noRecordWorld : World :=
  sampleWorld (sampleConfig "token") (.ok ⟨200, "5.6.7.8", none⟩)
    (.ok ⟨200, "listing body", none⟩) (.ok (sampleRecords 0 []))
    (.failed "not called") (.error "not called")

/-- A record whose identifier is not a valid piece of a URL path: "%zz" is a
malformed percent-escape. -/
def unparsableIdWorld : World :=
  sampleWorld (sampleConfig "global") (.ok ⟨200, "5.6.7.8", none⟩)
    (.ok ⟨200, "listing body", none⟩)
    (.ok (sampleRecords 1 [sampleRecord "%zz" "1.2.3.4"]))
    (.ok ⟨200, "update body", none⟩)
    (.ok (sampleUpdate true (sampleRecord "%zz" "5.6.7.8")))

/-- The machine is offline: `http.Get` returns a nil response and an error. -/
def offlineWorld : World :=
  sampleWorld (sampleConfig "global")
    (.failed "dial tcp: lookup api.ipify.org: no such host")
    (.failed "not called") (.error "not called") (.failed "not called")
    (.error "not called")

/-- The listing reports count 1 but carries an empty result sequence. -/
def emptyResultWorld : World :=
  sampleWorld (sampleConfig "global") (.ok ⟨200, "5.6.7.8", none⟩)
    (.ok ⟨200, "listing body", none⟩) (.ok (sampleRecords 1 []))
    (.failed "not called") (.error "not called")

/-! ## Facts about processes and about each part of `main` -/

theorem bind_eq {α β : Type} (m : Prog α) (f : α → Prog β) : (m >>= f) = Prog.bind m f := rfl

theorem pure_eq {α : Type} (a : α) : (pure a : Prog α) = Prog.pure a := rfl

theorem Prog.bind_ok {α β : Type} (es : List Event) (a : α) (f : α → Prog β) :
    Prog.bind ⟨es, .ok a⟩ f = ⟨es ++ (f a).trace, (f a).result⟩ := rfl

theorem Prog.bind_error {α β : Type} (es : List Event) (x : Exit) (f : α → Prog β) :
    Prog.bind ⟨es, .error x⟩ f = ⟨es, .error x⟩ := rfl

theorem requests_append (xs ys : List Event) :
    requests (xs ++ ys) = requests xs ++ requests ys := by
  induction xs with
  | nil => rfl
  | cons e es ih => cases e <;> simp [requests, ih]

theorem patches_append (xs ys : List Event) :
    patches (xs ++ ys) = patches xs ++ patches ys := by
  simp [patches, requests_append]

theorem trace_bind_ok {α β : Type} (m : Prog α) (f : α → Prog β) (a : α)
    (h : m.result = .ok a) : (Prog.bind m f).trace = m.trace ++ (f a).trace := by
  unfold Prog.bind
  simp [h]

theorem result_bind_ok {α β : Type} (m : Prog α) (f : α → Prog β) (a : α)
    (h : m.result = .ok a) : (Prog.bind m f).result = (f a).result := by
  unfold Prog.bind
  simp [h]

theorem requests_bind {α β : Type} (m : Prog α) (f : α → Prog β) :
    requests (Prog.bind m f).trace
      = requests m.trace ++ (match m.result with
        | .ok a => requests (f a).trace
        | .error _ => []) := by
  unfold Prog.bind
  cases h : m.result <;> simp [requests_append]

theorem result_bind {α β : Type} (m : Prog α) (f : α → Prog β) :
    (Prog.bind m f).result
      = (match m.result with
        | .ok a => (f a).result
        | .error x => .error x) := by
  unfold Prog.bind
  cases h : m.result <;> simp

theorem setHeaders_some (config : Config) (auth : String × String) (r : Request) :
    setHeaders config auth (some r)
      = ⟨[], .ok (some ⟨r.Method, r.URL, Header.Set (Header.Set (Header.Set r.Header
          "X-Auth-Email" config.AuthEmail) "Content-Type" "application/json")
          auth.1 (auth.2 ++ config.AuthKey), r.Body⟩)⟩ := by
  simp [setHeaders, headerSet, bind_eq, Prog.bind, Prog.pure]

theorem setHeaders_none (config : Config) (auth : String × String) :
    setHeaders config auth none
      = goPanic "invalid memory address or nil pointer dereference" := by
  simp [setHeaders, headerSet, bind_eq, Prog.bind, goPanic]

theorem headersOf_global (config : Config) :
    headersOf config ("X-Auth-Key", "")
      = [("X-Auth-Email", config.AuthEmail), ("Content-Type", "application/json"),
          ("X-Auth-Key", config.AuthKey)] := by
  simp [headersOf, Header.Set]

theorem headersOf_token (config : Config) :
    headersOf config ("Authorization", "Bearer ")
      = [("X-Auth-Email", config.AuthEmail), ("Content-Type", "application/json"),
          ("Authorization", "Bearer " ++ config.AuthKey)] := by
  simp [headersOf, Header.Set]

theorem loadConfig_ok (w : World) (config : Config) (h : w.LoadConfig = .ok config) :
    loadConfig w = ⟨[], .ok config⟩ := by
  simp [loadConfig, h, Prog.pure]

theorem getPublicIP_ok (w : World) (currentIP : String)
    (h : w.Get "https://api.ipify.org?format=text" = .ok ⟨200, currentIP, none⟩) :
    getPublicIP w = ⟨[.log "Attempting to get our current IP address from ipify.org\n",
      .httpGet "https://api.ipify.org?format=text",
      .log ("Our Current Public IP Address: " ++ currentIP)], .ok currentIP⟩ := by
  simp [getPublicIP, bind_eq, Prog.bind, Prog.pure, httpGet, h, HttpResult.resp,
    HttpResult.err, deref, logPrint, emit]

theorem getPublicIP_requests (w : World) : requests (getPublicIP w).trace = [] := by
  cases h : w.Get "https://api.ipify.org?format=text" with
  | ok r =>
    by_cases hs : r.StatusCode = 200
    · cases hr : r.ReadErr <;>
        simp [getPublicIP, bind_eq, Prog.bind_ok, Prog.bind_error, Prog.pure, httpGet, h,
          HttpResult.resp, HttpResult.err, deref, logPrint, emit, logFatal, hs, hr, requests]
    · simp [getPublicIP, bind_eq, Prog.bind_ok, Prog.bind_error, Prog.pure, httpGet, h,
        HttpResult.resp, HttpResult.err, deref, logPrint, emit, logFatal, hs, requests]
  | failed e =>
    simp [getPublicIP, bind_eq, Prog.bind_ok, Prog.bind_error, Prog.pure, httpGet, h,
      HttpResult.resp, HttpResult.err, deref, logPrint, emit, logFatal, goPanic, requests]
  | failedWithResponse r e =>
    simp [getPublicIP, bind_eq, Prog.bind_ok, Prog.bind_error, Prog.pure, httpGet, h,
      HttpResult.resp, HttpResult.err, deref, logPrint, emit, logFatal, requests]

theorem getPublicIP_result (w : World) :
    (∃ currentIP, w.Get "https://api.ipify.org?format=text" = .ok ⟨200, currentIP, none⟩ ∧
        (getPublicIP w).result = .ok currentIP) ∨
      (getPublicIP w).result = .error (.code 1) ∨
      (getPublicIP w).result
        = .error (.panic "invalid memory address or nil pointer dereference") := by
  cases h : w.Get "https://api.ipify.org?format=text" with
  | ok r =>
    obtain ⟨status, body, readErr⟩ := r
    by_cases hs : status = 200
    · cases readErr with
      | none =>
        subst hs
        exact Or.inl ⟨body, rfl, by rw [getPublicIP_ok w body h]⟩
      | some e =>
        right; left
        simp [getPublicIP, bind_eq, Prog.bind_ok, Prog.bind_error, Prog.pure, httpGet, h,
          HttpResult.resp, HttpResult.err, deref, logPrint, emit, logFatal, hs]
    · right; left
      simp [getPublicIP, bind_eq, Prog.bind_ok, Prog.bind_error, Prog.pure, httpGet, h,
        HttpResult.resp, HttpResult.err, deref, logPrint, emit, logFatal, hs]
  | failed e =>
    right; right
    simp [getPublicIP, bind_eq, Prog.bind_ok, Prog.bind_error, Prog.pure, httpGet, h,
      HttpResult.resp, HttpResult.err, deref, logPrint, emit, logFatal, goPanic]
  | failedWithResponse r e =>
    right; left
    simp [getPublicIP, bind_eq, Prog.bind_ok, Prog.bind_error, Prog.pure, httpGet, h,
      HttpResult.resp, HttpResult.err, deref, logPrint, emit, logFatal]

theorem setAuthHeader_ok (config : Config)
    (h : config.AuthMethod = "global" ∨ config.AuthMethod = "token") :
    setAuthHeader config = ⟨if config.Verbose
      then [.print ("Auth Method: " ++ config.AuthMethod ++ "\n")] else [], .ok (authOf config)⟩ := by
  rcases h with h | h <;> cases hv : config.Verbose <;>
    simp [setAuthHeader, authOf, bind_eq, Prog.bind, Prog.pure, h, hv, fmtPrint, emit, pure_eq]

theorem setAuthHeader_requests (config : Config) :
    requests (setAuthHeader config).trace = [] := by
  cases hv : config.Verbose <;> by_cases hg : config.AuthMethod = "global" <;>
    by_cases ht : config.AuthMethod = "token" <;>
    simp [setAuthHeader, hv, hg, ht, bind_eq, Prog.bind_ok, Prog.bind_error, Prog.pure,
      pure_eq, fmtPrint, emit, logFatal, requests]

theorem setAuthHeader_result (config : Config) (auth : String × String)
    (h : (setAuthHeader config).result = .ok auth) :
    (config.AuthMethod = "global" ∨ config.AuthMethod = "token") ∧ auth = authOf config := by
  revert h
  cases hv : config.Verbose <;> by_cases hg : config.AuthMethod = "global" <;>
    by_cases ht : config.AuthMethod = "token" <;>
    simp [setAuthHeader, authOf, hv, hg, ht, bind_eq, Prog.bind_ok, Prog.bind_error, Prog.pure,
      pure_eq, fmtPrint, emit, logFatal] <;> intro h <;> exact h.symm

theorem setAuthHeader_unsupported (config : Config) (hg : config.AuthMethod ≠ "global")
    (ht : config.AuthMethod ≠ "token") :
    (setAuthHeader config).result = .error (.code 1) := by
  cases hv : config.Verbose <;>
    simp [setAuthHeader, hv, hg, ht, bind_eq, Prog.bind_ok, Prog.bind_error, Prog.pure,
      pure_eq, fmtPrint, emit, logFatal]

theorem fetchRecords_ok (w : World) (config : Config) (auth : String × String)
    (resp : Response) (records : APIResponse)
    (hurl : urlParse (endpointOf config) = true)
    (hdo : w.Do (listRequest config auth) = .ok resp) (hread : resp.ReadErr = none)
    (hdec : w.unmarshalAPIResponse resp.Body = .ok records) :
    fetchRecords w config auth = ⟨[.log "Checking for A record\n",
      .clientDo (listRequest config auth)], .ok records⟩ := by
  simp only [listRequest, endpointOf, headersOf] at hurl hdo ⊢
  simp [fetchRecords, bind_eq, Prog.bind_ok, Prog.bind_error, Prog.pure, httpNewRequest, hurl,
    setHeaders_some, clientDo, logPrint, emit, hdo, HttpResult.resp, HttpResult.err, deref,
    hread, hdec]

theorem fetchRecords_requests (w : World) (config : Config) (auth : String × String)
    (r : Request) (h : r ∈ requests (fetchRecords w config auth).trace) :
    r = listRequest config auth := by
  revert h
  simp only [listRequest, endpointOf, headersOf]
  cases hurl : urlParse ("https://api.cloudflare.com/client/v4/zones/"
      ++ config.ZoneIdentifier ++ "/dns_records?type=A&name=" ++ config.RecordName) with
  | false =>
    simp [fetchRecords, bind_eq, Prog.bind_ok, Prog.bind_error, httpNewRequest, hurl,
      setHeaders_none, logPrint, emit, goPanic, requests]
  | true =>
    cases hdo : w.Do ⟨"GET", ⟨"https://api.cloudflare.com/client/v4/zones/"
      ++ config.ZoneIdentifier ++ "/dns_records?type=A&name=" ++ config.RecordName⟩,
      Header.Set (Header.Set (Header.Set [] "X-Auth-Email" config.AuthEmail) "Content-Type"
        "application/json") auth.1 (auth.2 ++ config.AuthKey), none⟩ with
    | ok resp =>
      cases hr : resp.ReadErr with
      | some e =>
        simp [fetchRecords, bind_eq, Prog.bind_ok, Prog.bind_error, Prog.pure, httpNewRequest,
          hurl, setHeaders_some, clientDo, logPrint, emit, hdo, HttpResult.resp,
          HttpResult.err, deref, hr, logFatal, requests]
      | none =>
        cases hd : w.unmarshalAPIResponse resp.Body <;>
        simp [fetchRecords, bind_eq, Prog.bind_ok, Prog.bind_error, Prog.pure, httpNewRequest,
          hurl, setHeaders_some, clientDo, logPrint, emit, hdo, HttpResult.resp,
          HttpResult.err, deref, hr, hd, logFatal, requests]
    | failed e =>
      simp [fetchRecords, bind_eq, Prog.bind_ok, Prog.bind_error, Prog.pure, httpNewRequest,
        hurl, setHeaders_some, clientDo, logPrint, emit, hdo, HttpResult.resp,
        HttpResult.err, logFatal, requests]
    | failedWithResponse resp e =>
      simp [fetchRecords, bind_eq, Prog.bind_ok, Prog.bind_error, Prog.pure, httpNewRequest,
        hurl, setHeaders_some, clientDo, logPrint, emit, hdo, HttpResult.resp,
        HttpResult.err, logFatal, requests]

theorem checkRecords_ok (w : World) (config : Config) (records : APIResponse)
    (h : 1 ≤ records.ResultInfo.Count) :
    (checkRecords w config records).result = .ok ()
      ∧ requests (checkRecords w config records).trace = [] := by
  have hn : ¬ records.ResultInfo.Count < 1 := by omega
  cases hv : config.Verbose <;>
    simp [checkRecords, bind_eq, Prog.bind_ok, Prog.bind_error, Prog.pure, pure_eq, fmtPrint,
      logPrint, emit, hn, hv, jsonMarshalIndent, requests]

theorem checkRecords_lt (w : World) (config : Config) (records : APIResponse)
    (h : records.ResultInfo.Count < 1) :
    checkRecords w config records
      = ⟨[.print ("Count of Records: " ++ toString records.ResultInfo.Count ++ "\n"),
          .log ("Records does not exist for " ++ config.Sitename ++ ". Try adding one first.")],
        .error (.code 1)⟩ := by
  simp [checkRecords, bind_eq, Prog.bind_ok, Prog.bind_error, fmtPrint, emit, logFatal, h]

theorem checkRecords_requests (w : World) (config : Config) (records : APIResponse) :
    requests (checkRecords w config records).trace = [] := by
  by_cases h : records.ResultInfo.Count < 1
  · rw [checkRecords_lt w config records h]; rfl
  · exact (checkRecords_ok w config records (by omega)).2

theorem extractRecord_same (currentIP : String) (records : APIResponse) (first : Result)
    (rest : List Result) (hres : records.Result = first :: rest)
    (hsame : first.Content = currentIP) :
    extractRecord currentIP records
      = ⟨[.log "Your public IP hasn't changed since last update. I will try again later\n"],
        .error (.code 0)⟩ := by
  simp [extractRecord, bind_eq, Prog.bind_ok, Prog.bind_error, Prog.pure, index0, hres, hsame,
    logPrint, emit, osExit]

theorem extractRecord_changed (currentIP : String) (records : APIResponse) (first : Result)
    (rest : List Result) (hres : records.Result = first :: rest)
    (hdiff : first.Content ≠ currentIP) :
    extractRecord currentIP records = ⟨[], .ok first.ID⟩ := by
  simp [extractRecord, bind_eq, Prog.bind_ok, Prog.bind_error, Prog.pure, index0, hres, hdiff]

theorem extractRecord_empty (currentIP : String) (records : APIResponse)
    (hres : records.Result = []) :
    extractRecord currentIP records
      = ⟨[], .error (.panic "index out of range [0] with length 0")⟩ := by
  simp [extractRecord, bind_eq, Prog.bind_error, index0, hres, goPanic]

theorem extractRecord_requests (currentIP : String) (records : APIResponse) :
    requests (extractRecord currentIP records).trace = [] := by
  cases hres : records.Result with
  | nil => rw [extractRecord_empty currentIP records hres]; rfl
  | cons first rest =>
    by_cases h : first.Content = currentIP
    · rw [extractRecord_same currentIP records first rest hres h]; rfl
    · rw [extractRecord_changed currentIP records first rest hres h]; rfl

theorem extractRecord_result (currentIP : String) (records : APIResponse) (id : String)
    (h : (extractRecord currentIP records).result = .ok id) :
    ∃ first rest, records.Result = first :: rest ∧ first.Content ≠ currentIP ∧ id = first.ID := by
  cases hres : records.Result with
  | nil => rw [extractRecord_empty currentIP records hres] at h; cases h
  | cons first rest =>
    by_cases hc : first.Content = currentIP
    · rw [extractRecord_same currentIP records first rest hres hc] at h; cases h
    · rw [extractRecord_changed currentIP records first rest hres hc] at h
      cases h
      exact ⟨first, rest, rfl, hc, rfl⟩

theorem changeRecord_unparsable (w : World) (config : Config) (auth : String × String)
    (currentIP id : String) (hurl : urlParse (updateUrlOf config id) = false) :
    changeRecord w config auth currentIP id
      = ⟨[], .error (.panic "invalid memory address or nil pointer dereference")⟩ := by
  simp only [updateUrlOf] at hurl
  simp [changeRecord, jsonMarshal, httpNewRequest, hurl, setHeaders_none, bind_eq,
    Prog.bind_error, goPanic]

theorem changeRecord_ok (w : World) (config : Config) (auth : String × String)
    (currentIP id : String) (resp : Response)
    (hurl : urlParse (updateUrlOf config id) = true)
    (hdo : w.Do (patchRequest config auth currentIP id) = .ok resp) :
    changeRecord w config auth currentIP id
      = ⟨[.clientDo (patchRequest config auth currentIP id)], .ok resp⟩ := by
  simp only [patchRequest, updateUrlOf, headersOf, payloadOf] at hurl hdo ⊢
  simp [changeRecord, jsonMarshal, httpNewRequest, hurl, setHeaders_some, bind_eq,
    Prog.bind_ok, Prog.bind_error, Prog.pure, clientDo, hdo, HttpResult.resp, HttpResult.err,
    deref]

theorem changeRecord_failed (w : World) (config : Config) (auth : String × String)
    (currentIP id : String) (e : String)
    (hurl : urlParse (updateUrlOf config id) = true)
    (hdo : w.Do (patchRequest config auth currentIP id) = .failed e) :
    changeRecord w config auth currentIP id
      = ⟨[.clientDo (patchRequest config auth currentIP id),
          .log ("Failed to update records in Cloudflare: " ++ e ++ "\n")],
        .error (.panic "invalid memory address or nil pointer dereference")⟩ := by
  simp only [patchRequest, updateUrlOf, headersOf, payloadOf] at hurl hdo ⊢
  simp [changeRecord, jsonMarshal, httpNewRequest, hurl, setHeaders_some, bind_eq,
    Prog.bind_ok, Prog.bind_error, Prog.pure, clientDo, hdo, HttpResult.resp, HttpResult.err,
    deref, logPrint, emit, goPanic]

theorem changeRecord_failedWithResponse (w : World) (config : Config)
    (auth : String × String) (currentIP id : String) (resp : Response) (e : String)
    (hurl : urlParse (updateUrlOf config id) = true)
    (hdo : w.Do (patchRequest config auth currentIP id) = .failedWithResponse resp e) :
    changeRecord w config auth currentIP id
      = ⟨[.clientDo (patchRequest config auth currentIP id),
          .log ("Failed to update records in Cloudflare: " ++ e ++ "\n")], .ok resp⟩ := by
  simp only [patchRequest, updateUrlOf, headersOf, payloadOf] at hurl hdo ⊢
  simp [changeRecord, jsonMarshal, httpNewRequest, hurl, setHeaders_some, bind_eq,
    Prog.bind_ok, Prog.bind_error, Prog.pure, clientDo, hdo, HttpResult.resp, HttpResult.err,
    deref, logPrint, emit]

/-- Whenever the update URL parses, exactly the update request is handed to
`client.Do`, whatever comes back. -/
theorem changeRecord_requests_parsed (w : World) (config : Config) (auth : String × String)
    (currentIP id : String) (hurl : urlParse (updateUrlOf config id) = true) :
    requests (changeRecord w config auth currentIP id).trace
      = [patchRequest config auth currentIP id] := by
  cases hdo : w.Do (patchRequest config auth currentIP id) with
  | ok resp => rw [changeRecord_ok w config auth currentIP id resp hurl hdo]; rfl
  | failed e => rw [changeRecord_failed w config auth currentIP id e hurl hdo]; rfl
  | failedWithResponse resp e =>
    rw [changeRecord_failedWithResponse w config auth currentIP id resp e hurl hdo]; rfl

theorem changeRecord_result_parsed (w : World) (config : Config) (auth : String × String)
    (currentIP id : String) (hurl : urlParse (updateUrlOf config id) = true) :
    (changeRecord w config auth currentIP id).result
      = match (w.Do (patchRequest config auth currentIP id)).resp with
        | some resp => .ok resp
        | none => .error (.panic "invalid memory address or nil pointer dereference") := by
  cases hdo : w.Do (patchRequest config auth currentIP id) with
  | ok resp => rw [changeRecord_ok w config auth currentIP id resp hurl hdo]; rfl
  | failed e => rw [changeRecord_failed w config auth currentIP id e hurl hdo]; rfl
  | failedWithResponse resp e =>
    rw [changeRecord_failedWithResponse w config auth currentIP id resp e hurl hdo]; rfl

theorem changeRecord_requests (w : World) (config : Config) (auth : String × String)
    (currentIP id : String) (r : Request)
    (h : r ∈ requests (changeRecord w config auth currentIP id).trace) :
    r = patchRequest config auth currentIP id := by
  cases hurl : urlParse (updateUrlOf config id) with
  | false =>
    rw [changeRecord_unparsable w config auth currentIP id hurl] at h
    simp [requests] at h
  | true =>
    rw [changeRecord_requests_parsed w config auth currentIP id hurl] at h
    simpa using h

theorem reportUpdate_requests (w : World) (config : Config) (id : String) (resp : Response) :
    requests (reportUpdate w config id resp).trace = [] := by
  cases hd : w.unmarshalUpdateResponse resp.Body with
  | error e => simp [reportUpdate, hd, logFatal, requests]
  | ok upd =>
    cases hv : config.Verbose <;> cases hs : upd.Success <;>
      simp [reportUpdate, hd, hv, hs, bind_eq, Prog.bind_ok, Prog.bind_error, Prog.pure,
        pure_eq, jsonMarshalIndent, fmtPrint, logPrint, emit, logFatal, requests]

/-- The report of lines 224-250 once the update envelope is decoded. -/
theorem reportUpdate_decoded (w : World) (config : Config) (id : String) (resp : Response)
    (upd : UpdateResponse) (hdec : w.unmarshalUpdateResponse resp.Body = .ok upd) :
    reportUpdate w config id resp
      = ⟨(if config.Verbose
            then [.print ("New Records: " ++ w.indentUpdateResponse upd ++ "\n")] else [])
          ++ [.log (if upd.Success
            then "Successfully updated records for " ++ id ++ " (" ++ config.RecordName
              ++ "): " ++ upd.Result.Content ++ "\n"
            else "Failed to update records for " ++ id ++ " (" ++ config.RecordName
              ++ ")\n")],
        if upd.Success then .ok () else .error (.code 1)⟩ := by
  cases hv : config.Verbose <;> cases hs : upd.Success <;>
    simp [reportUpdate, hdec, hv, hs, bind_eq, Prog.bind_ok, Prog.bind_error, Prog.pure,
      pure_eq, jsonMarshalIndent, fmtPrint, logPrint, emit, logFatal]

theorem requests_change_report (w : World) (config : Config) (auth : String × String)
    (currentIP id : String) (r : Request)
    (h : r ∈ requests (Prog.bind (changeRecord w config auth currentIP id)
      (fun response => reportUpdate w config id response)).trace) :
    r = patchRequest config auth currentIP id := by
  rw [requests_bind] at h
  cases hc : (changeRecord w config auth currentIP id).result with
  | error x =>
    simp only [hc, List.append_nil] at h
    exact changeRecord_requests w config auth currentIP id r h
  | ok resp =>
    simp only [hc, reportUpdate_requests, List.append_nil] at h
    exact changeRecord_requests w config auth currentIP id r h

theorem requests_change_report_parsed (w : World) (config : Config)
    (auth : String × String) (currentIP id : String)
    (hurl : urlParse (updateUrlOf config id) = true) :
    requests (Prog.bind (changeRecord w config auth currentIP id)
      (fun response => reportUpdate w config id response)).trace
      = [patchRequest config auth currentIP id] := by
  rw [requests_bind, changeRecord_requests_parsed w config auth currentIP id hurl]
  cases hc : (changeRecord w config auth currentIP id).result <;>
    simp [reportUpdate_requests]

/-- Every request a run hands to `client.Do` is the lookup request or an update
request, built with the auth pair of the configured method. -/
theorem main_requests_mem (w : World) (config : Config) (hload : w.LoadConfig = .ok config)
    (r : Request) (hr : r ∈ requests (main w).trace) :
    (config.AuthMethod = "global" ∨ config.AuthMethod = "token") ∧
      (r = listRequest config (authOf config) ∨
        ∃ currentIP id, r = patchRequest config (authOf config) currentIP id) := by
  unfold main at hr
  simp only [bind_eq, requests_bind, loadConfig_ok w config hload, getPublicIP_requests,
    setAuthHeader_requests, checkRecords_requests, extractRecord_requests,
    reportUpdate_requests] at hr
  cases h1 : (getPublicIP w).result with
  | error x => simp [h1, requests] at hr
  | ok currentIP =>
    cases h2 : (setAuthHeader config).result with
    | error x => simp [h1, h2, requests] at hr
    | ok auth =>
      obtain ⟨hauth, rfl⟩ := setAuthHeader_result config auth h2
      refine ⟨hauth, ?_⟩
      simp only [h1, h2, requests, List.nil_append, List.mem_append] at hr
      rcases hr with hr | hr
      · exact Or.inl (fetchRecords_requests w config _ r hr)
      · right
        cases h3 : (fetchRecords w config (authOf config)).result with
        | error x => simp [h3] at hr
        | ok records =>
          cases h4 : (checkRecords w config records).result with
          | error x => simp [h3, h4] at hr
          | ok u =>
            cases h5 : (extractRecord currentIP records).result with
            | error x => simp [h3, h4, h5] at hr
            | ok id =>
              simp only [h3, h4, h5, List.mem_append] at hr
              rcases hr with hr | hr
              · exact ⟨currentIP, id, changeRecord_requests w config _ currentIP id r hr⟩
              · cases h6 : (changeRecord w config (authOf config) currentIP id).result <;>
                  simp [h6] at hr

theorem request_header (w : World) (config : Config) (hload : w.LoadConfig = .ok config)
    (r : Request) (hr : r ∈ requests (main w).trace) :
    r.Header = headersOf config (authOf config) := by
  obtain ⟨_, h | ⟨ip, id, h⟩⟩ := main_requests_mem w config hload r hr <;> rw [h] <;> rfl

theorem main_of_lookup (w : World) (config : Config) (currentIP : String)
    (records : APIResponse) (h : LookupDecodes w config currentIP records) :
    (main w).result = (afterLookup w config currentIP records).result ∧
    ∃ before, requests before = [listRequest config (authOf config)] ∧
      (main w).trace = before ++ (afterLookup w config currentIP records).trace := by
  obtain ⟨h1, h2, h3, h4, resp, h5, h6, h7⟩ := h
  unfold main afterLookup
  simp only [bind_eq, loadConfig_ok w config h1, getPublicIP_ok w currentIP h2,
    setAuthHeader_ok config h3, fetchRecords_ok w config _ resp records h4 h5 h6 h7,
    Prog.bind_ok]
  refine ⟨trivial, [Event.log "Attempting to get our current IP address from ipify.org\n",
      Event.httpGet "https://api.ipify.org?format=text",
      Event.log ("Our Current Public IP Address: " ++ currentIP)] ++
    ((if config.Verbose = true then
        [Event.print ("Auth Method: " ++ config.AuthMethod ++ "\n")] else []) ++
      [Event.log "Checking for A record\n",
        Event.clientDo (listRequest config (authOf config))]), ?_, ?_⟩
  · cases config.Verbose <;> simp [requests]
  · simp only [List.nil_append, List.append_assoc]

theorem patches_of_lookup (config : Config) (before : List Event)
    (h : requests before = [listRequest config (authOf config)]) : patches before = [] := by
  simp [patches, h, listRequest]

theorem afterLookup_lt (w : World) (config : Config) (currentIP : String)
    (records : APIResponse) (h : records.ResultInfo.Count < 1) :
    afterLookup w config currentIP records
      = ⟨[.print ("Count of Records: " ++ toString records.ResultInfo.Count ++ "\n"),
          .log ("Records does not exist for " ++ config.Sitename ++ ". Try adding one first.")],
        .error (.code 1)⟩ := by
  unfold afterLookup
  rw [checkRecords_lt w config records h]
  rfl

theorem afterLookup_same (w : World) (config : Config) (currentIP : String)
    (records : APIResponse) (hcount : 1 ≤ records.ResultInfo.Count) (first : Result)
    (rest : List Result) (hres : records.Result = first :: rest)
    (hsame : first.Content = currentIP) :
    (afterLookup w config currentIP records).result = .error (.code 0) ∧
      requests (afterLookup w config currentIP records).trace = [] := by
  obtain ⟨hok, hreq⟩ := checkRecords_ok w config records hcount
  unfold afterLookup
  rw [result_bind_ok _ _ () hok, requests_bind, hok, hreq,
    extractRecord_same currentIP records first rest hres hsame]
  exact ⟨rfl, rfl⟩

theorem afterLookup_changed (w : World) (config : Config) (currentIP : String)
    (records : APIResponse) (hcount : 1 ≤ records.ResultInfo.Count) (first : Result)
    (rest : List Result) (hres : records.Result = first :: rest)
    (hdiff : first.Content ≠ currentIP) :
    (afterLookup w config currentIP records).result
        = (Prog.bind (changeRecord w config (authOf config) currentIP first.ID)
            (fun response => reportUpdate w config first.ID response)).result ∧
      (afterLookup w config currentIP records).trace
        = (checkRecords w config records).trace
          ++ (Prog.bind (changeRecord w config (authOf config) currentIP first.ID)
            (fun response => reportUpdate w config first.ID response)).trace ∧
      requests (checkRecords w config records).trace = [] := by
  obtain ⟨hok, hreq⟩ := checkRecords_ok w config records hcount
  unfold afterLookup
  rw [result_bind_ok _ _ () hok, trace_bind_ok _ _ () hok,
    extractRecord_changed currentIP records first rest hres hdiff]
  simp only [Prog.bind_ok, List.nil_append]
  exact ⟨trivial, trivial, hreq⟩

theorem changedWorld_reaches (authMethod oldIP newIP : String) (update : HttpResult)
    (success : Bool) (hauth : authMethod = "global" ∨ authMethod = "token") :
    LookupDecodes (changedWorld authMethod oldIP newIP update success)
      (sampleConfig authMethod) newIP (sampleRecords 1 [sampleRecord "abc" oldIP]) := by
  refine ⟨rfl, rfl, hauth, ?_, ⟨_, rfl, rfl, rfl⟩⟩
  rcases hauth with h | h <;> subst h <;> decide

/-! ## The claims -/

/-- C1. When the run reaches the decoded lookup envelope, the count is at least 1,
the result sequence is non-empty and its first record's content equals the
discovered IP, the process exits with status 0 and no PATCH request is
issued, whatever the other records are. -/
theorem unchanged_ip_exits_zero_without_patch (w : World) (config : Config)
    (currentIP : String) (records : APIResponse)
    (hreach : LookupDecodes w config currentIP records)
    (hcount : 1 ≤ records.ResultInfo.Count) (first : Result) (rest : List Result)
    (hres : records.Result = first :: rest) (hsame : first.Content = currentIP) :
    (main w).result = .error (.code 0) ∧ (main w).exitCode = 0 ∧
      patches (main w).trace = [] := by
  obtain ⟨hresult, before, hbefore, htrace⟩ := main_of_lookup w config currentIP records hreach
  obtain ⟨hexit, hreq⟩ :=
    afterLookup_same w config currentIP records hcount first rest hres hsame
  have hr : (main w).result = .error (.code 0) := hresult.trans hexit
  refine ⟨hr, ?_, ?_⟩
  · simp [Prog.exitCode, hr]
  · rw [htrace, patches_append, patches_of_lookup config before hbefore]
    simp [patches, hreq]

/-- Witness of C1: the spec scenario with count 2 and an unchanged address. -/
theorem unchanged_ip_exits_zero_without_patch_witness :
    LookupDecodes unchangedWorld (sampleConfig "global") "1.1.1.1"
        (sampleRecords 2 [sampleRecord "abc" "1.1.1.1", sampleRecord "def" "2.2.2.2"]) ∧
      (main unchangedWorld).result = .error (.code 0) ∧ (main unchangedWorld).exitCode = 0 ∧
      patches (main unchangedWorld).trace = [] :=
  have hreach : LookupDecodes unchangedWorld (sampleConfig "global") "1.1.1.1"
      (sampleRecords 2 [sampleRecord "abc" "1.1.1.1", sampleRecord "def" "2.2.2.2"]) :=
    ⟨rfl, rfl, Or.inl rfl, by decide, ⟨_, rfl, rfl, rfl⟩⟩
  ⟨hreach, unchanged_ip_exits_zero_without_patch unchangedWorld (sampleConfig "global")
    "1.1.1.1" _ hreach (by decide) (sampleRecord "abc" "1.1.1.1")
    [sampleRecord "def" "2.2.2.2"] rfl rfl⟩

/-- C2 (the code departs from it). A run that reaches the comparison with count 1,
one record of id "%zz" and content "1.2.3.4", and discovered IP "5.6.7.8":
`http.NewRequest` rejects the update URL string (a malformed percent-escape),
line 213 discards its error and keeps the nil request, the first
`Header.Set` at line 214 dereferences it and the process panics.  No PATCH
request is issued, where the claim asks for exactly one. -/
theorem unparsable_record_id_issues_no_patch :
    LookupDecodes unparsableIdWorld (sampleConfig "global") "5.6.7.8"
        (sampleRecords 1 [sampleRecord "%zz" "1.2.3.4"]) ∧
      1 ≤ (sampleRecords 1 [sampleRecord "%zz" "1.2.3.4"]).ResultInfo.Count ∧
      (sampleRecords 1 [sampleRecord "%zz" "1.2.3.4"]).Result
        = [sampleRecord "%zz" "1.2.3.4"] ∧
      (sampleRecord "%zz" "1.2.3.4").Content ≠ "5.6.7.8" ∧
      patches (main unparsableIdWorld).trace = [] ∧
      (¬ ∃ r, patches (main unparsableIdWorld).trace = [r]) ∧
      (main unparsableIdWorld).result
        = .error (.panic "invalid memory address or nil pointer dereference") ∧
      (main unparsableIdWorld).exitCode = 2 := by
  refine ⟨⟨rfl, rfl, Or.inl rfl, by decide, ⟨_, rfl, rfl, rfl⟩⟩, by decide, rfl, by decide,
    by decide, ?_, rfl, rfl⟩
  rintro ⟨r, hr⟩
  have h : patches (main unparsableIdWorld).trace = [] := by decide
  rw [h] at hr
  cases hr

/-- C3. When the run reaches the decoded lookup envelope and its count is below 1
(zero or negative), the process exits with status 1 and no PATCH request is
issued, whatever the result sequence holds. -/
theorem count_below_one_exits_one_without_patch (w : World) (config : Config)
    (currentIP : String) (records : APIResponse)
    (hreach : LookupDecodes w config currentIP records)
    (hcount : records.ResultInfo.Count < 1) :
    (main w).result = .error (.code 1) ∧ (main w).exitCode = 1 ∧
      patches (main w).trace = [] := by
  obtain ⟨hresult, before, hbefore, htrace⟩ := main_of_lookup w config currentIP records hreach
  rw [afterLookup_lt w config currentIP records hcount] at hresult htrace
  refine ⟨hresult, ?_, ?_⟩
  · simp [Prog.exitCode, hresult]
  · rw [htrace, patches_append, patches_of_lookup config before hbefore]
    simp [patches, requests]

/-- Witness of C3: a listing with count 0 and no record. -/
theorem count_below_one_exits_one_without_patch_witness :
    (sampleRecords 0 []).ResultInfo.Count < 1 ∧
      (main noRecordWorld).result = .error (.code 1) ∧ (main noRecordWorld).exitCode = 1 ∧
      patches (main noRecordWorld).trace = [] :=
  ⟨by decide, count_below_one_exits_one_without_patch noRecordWorld (sampleConfig "token")
    "5.6.7.8" (sampleRecords 0 [])
    ⟨rfl, rfl, Or.inr rfl, by decide, ⟨_, rfl, rfl, rfl⟩⟩ (by decide)⟩

/-- C4. With a loaded configuration whose auth method is neither "global" nor
"token" (the empty string and "Token" included), the process ends with a
non-zero status and hands no request at all to `client.Do`: neither the
lookup GET nor a PATCH is issued. -/
theorem unsupported_auth_method_exits_before_lookup (w : World) (config : Config)
    (hload : w.LoadConfig = .ok config) (hglobal : config.AuthMethod ≠ "global")
    (htoken : config.AuthMethod ≠ "token") :
    (main w).exitCode ≠ 0 ∧ requests (main w).trace = [] := by
  have hauth := setAuthHeader_unsupported config hglobal htoken
  constructor
  · unfold main Prog.exitCode
    simp only [bind_eq, result_bind, loadConfig_ok w config hload]
    rcases getPublicIP_result w with ⟨ip, _, h⟩ | h | h <;> simp [h, hauth]
  · unfold main
    simp only [bind_eq, requests_bind, loadConfig_ok w config hload, getPublicIP_requests,
      setAuthHeader_requests, hauth]
    cases (getPublicIP w).result <;> simp [requests]

/-- Witness of C4: the case variant "Token" is not a supported auth method. -/
theorem unsupported_auth_method_exits_before_lookup_witness :
    (sampleConfig "Token").AuthMethod ≠ "global" ∧ (sampleConfig "Token").AuthMethod ≠ "token" ∧
      (main (changedWorld "Token" "1.2.3.4" "5.6.7.8" (.ok ⟨200, "update body", none⟩)
        true)).exitCode ≠ 0 ∧
      requests (main (changedWorld "Token" "1.2.3.4" "5.6.7.8"
        (.ok ⟨200, "update body", none⟩) true)).trace = [] :=
  ⟨by decide, by decide, unsupported_auth_method_exits_before_lookup _ (sampleConfig "Token")
    rfl (by decide) (by decide)⟩

/-- C5. With auth method "global", every request the run hands to `client.Do`
(the lookup GET, and the update PATCH when it is issued) carries the header
X-Auth-Key with exactly the configured key, and carries no Authorization
header. -/
theorem global_auth_sets_x_auth_key (w : World) (config : Config)
    (hload : w.LoadConfig = .ok config) (hglobal : config.AuthMethod = "global")
    (r : Request) (hr : r ∈ requests (main w).trace) :
    Header.get? r.Header "X-Auth-Key" = some config.AuthKey ∧
      Header.get? r.Header "Authorization" = none := by
  rw [request_header w config hload r hr]
  simp [authOf, hglobal, headersOf_global, Header.get?]

/-- Witness of C5: with "global", the lookup GET and the update PATCH of a run
that changes the record. -/
theorem global_auth_sets_x_auth_key_witness :
    (Header.get? (listRequest (sampleConfig "global") ("X-Auth-Key", "")).Header "X-Auth-Key"
        = some "k3y" ∧
      Header.get? (listRequest (sampleConfig "global") ("X-Auth-Key", "")).Header
        "Authorization" = none) ∧
    (Header.get? (patchRequest (sampleConfig "global") ("X-Auth-Key", "") "5.6.7.8"
        "abc").Header "X-Auth-Key" = some "k3y" ∧
      Header.get? (patchRequest (sampleConfig "global") ("X-Auth-Key", "") "5.6.7.8"
        "abc").Header "Authorization" = none) :=
  ⟨global_auth_sets_x_auth_key
      (changedWorld "global" "1.2.3.4" "5.6.7.8" (.ok ⟨200, "update body", none⟩) true)
      (sampleConfig "global") rfl rfl _ (by decide),
    global_auth_sets_x_auth_key
      (changedWorld "global" "1.2.3.4" "5.6.7.8" (.ok ⟨200, "update body", none⟩) true)
      (sampleConfig "global") rfl rfl _ (by decide)⟩

/-- C6. With auth method "token", every request the run hands to `client.Do`
carries the header Authorization with exactly "Bearer " followed by the
configured key, and any two of its requests (so the PATCH and the lookup)
carry the same X-Auth-Email, Content-Type and Authorization values. -/
theorem token_auth_sets_bearer_authorization (w : World) (config : Config)
    (hload : w.LoadConfig = .ok config) (htoken : config.AuthMethod = "token")
    (r : Request) (hr : r ∈ requests (main w).trace) :
    Header.get? r.Header "Authorization" = some ("Bearer " ++ config.AuthKey) ∧
      Header.get? r.Header "X-Auth-Email" = some config.AuthEmail ∧
      Header.get? r.Header "Content-Type" = some "application/json" ∧
      ∀ p, p ∈ requests (main w).trace →
        Header.get? p.Header "X-Auth-Email" = Header.get? r.Header "X-Auth-Email" ∧
        Header.get? p.Header "Content-Type" = Header.get? r.Header "Content-Type" ∧
        Header.get? p.Header "Authorization" = Header.get? r.Header "Authorization" := by
  have hne : config.AuthMethod ≠ "global" := by rw [htoken]; decide
  refine ⟨?_, ?_, ?_, ?_⟩
  · rw [request_header w config hload r hr]
    simp [authOf, hne, headersOf_token, Header.get?]
  · rw [request_header w config hload r hr]
    simp [authOf, hne, headersOf_token, Header.get?]
  · rw [request_header w config hload r hr]
    simp [authOf, hne, headersOf_token, Header.get?]
  · intro p hp
    rw [request_header w config hload r hr, request_header w config hload p hp]
    exact ⟨rfl, rfl, rfl⟩

/-- Witness of C6: with "token", the lookup GET and the update PATCH of a run
that changes the record. -/
theorem token_auth_sets_bearer_authorization_witness :
    Header.get? (patchRequest (sampleConfig "token") ("Authorization", "Bearer ") "5.6.7.8"
        "abc").Header "Authorization" = some ("Bearer " ++ "k3y") ∧
      Header.get? (listRequest (sampleConfig "token") ("Authorization", "Bearer ")).Header
        "Authorization"
        = Header.get? (patchRequest (sampleConfig "token") ("Authorization", "Bearer ")
          "5.6.7.8" "abc").Header "Authorization" :=
  have h := token_auth_sets_bearer_authorization
    (changedWorld "token" "1.2.3.4" "5.6.7.8" (.ok ⟨200, "update body", none⟩) true)
    (sampleConfig "token") rfl rfl
    (patchRequest (sampleConfig "token") ("Authorization", "Bearer ") "5.6.7.8" "abc")
    (by decide)
  ⟨h.1, (h.2.2.2 (listRequest (sampleConfig "token") ("Authorization", "Bearer "))
    (by decide)).2.2⟩

/-- C7. When the PATCH was issued, came back with a response, and the response
body decodes as an update envelope: with a true success flag `main` returns
(status 0) and the last thing it does is log the success message naming the
record id, the configured record name and the content of the update envelope;
with a false flag the process exits with status 1 right after logging the
failure message naming the record id and the record name.  The status is 0
exactly when the flag is true. -/
theorem update_outcome_follows_success_flag (w : World) (config : Config)
    (currentIP : String) (records : APIResponse)
    (hreach : LookupDecodes w config currentIP records)
    (hcount : 1 ≤ records.ResultInfo.Count) (first : Result) (rest : List Result)
    (hres : records.Result = first :: rest) (hdiff : first.Content ≠ currentIP)
    (hurl : urlParse (updateUrlOf config first.ID) = true) (resp : Response)
    (hresp : (w.Do (patchRequest config (authOf config) currentIP first.ID)).resp = some resp)
    (upd : UpdateResponse) (hdec : w.unmarshalUpdateResponse resp.Body = .ok upd) :
    (upd.Success = true → (main w).result = .ok () ∧ (main w).exitCode = 0 ∧
      ∃ before, (main w).trace = before ++ [.log ("Successfully updated records for "
        ++ first.ID ++ " (" ++ config.RecordName ++ "): " ++ upd.Result.Content ++ "\n")]) ∧
    (upd.Success = false → (main w).result = .error (.code 1) ∧ (main w).exitCode = 1 ∧
      ∃ before, (main w).trace = before ++ [.log ("Failed to update records for "
        ++ first.ID ++ " (" ++ config.RecordName ++ ")\n")]) ∧
    ((main w).exitCode = 0 ↔ upd.Success = true) := by
  obtain ⟨hresult, before, _, htrace⟩ := main_of_lookup w config currentIP records hreach
  obtain ⟨hres2, hafter, _⟩ :=
    afterLookup_changed w config currentIP records hcount first rest hres hdiff
  have hchange : (changeRecord w config (authOf config) currentIP first.ID).result
      = .ok resp := by
    rw [changeRecord_result_parsed w config (authOf config) currentIP first.ID hurl, hresp]
  rw [hres2, result_bind_ok _ _ resp hchange,
    reportUpdate_decoded w config first.ID resp upd hdec] at hresult
  rw [hafter, trace_bind_ok _ _ resp hchange,
    reportUpdate_decoded w config first.ID resp upd hdec] at htrace
  simp only [← List.append_assoc] at htrace
  cases hs : upd.Success with
  | true =>
    simp only [hs, if_true] at hresult htrace
    simp [Prog.exitCode, hresult]
    exact ⟨_, htrace⟩
  | false =>
    simp only [hs] at hresult htrace
    simp [Prog.exitCode, hresult]
    exact ⟨_, htrace⟩

/-- Witness of C7: the scenario of the spec, record content "9.9.9.9" and
discovered IP "8.8.8.8", once with `success:true` and once with
`success:false`. -/
theorem update_outcome_follows_success_flag_witness :
    ((main (changedWorld "global" "9.9.9.9" "8.8.8.8" (.ok ⟨200, "update body", none⟩)
        true)).exitCode = 0 ∧
      ∃ before, (main (changedWorld "global" "9.9.9.9" "8.8.8.8"
          (.ok ⟨200, "update body", none⟩) true)).trace
        = before ++ [.log "Successfully updated records for abc (home.example.com): 8.8.8.8\n"])
    ∧ ((main (changedWorld "global" "9.9.9.9" "8.8.8.8" (.ok ⟨200, "update body", none⟩)
        false)).exitCode = 1 ∧
      ∃ before, (main (changedWorld "global" "9.9.9.9" "8.8.8.8"
          (.ok ⟨200, "update body", none⟩) false)).trace
        = before ++ [.log "Failed to update records for abc (home.example.com)\n"]) :=
  have ht := (update_outcome_follows_success_flag
    (changedWorld "global" "9.9.9.9" "8.8.8.8" (.ok ⟨200, "update body", none⟩) true)
    (sampleConfig "global") "8.8.8.8" _
    (changedWorld_reaches "global" "9.9.9.9" "8.8.8.8" _ true (Or.inl rfl)) (by decide)
    (sampleRecord "abc" "9.9.9.9") [] rfl (by decide) (by decide)
    ⟨200, "update body", none⟩ rfl (sampleUpdate true (sampleRecord "abc" "8.8.8.8")) rfl).1 rfl
  have hf := (update_outcome_follows_success_flag
    (changedWorld "global" "9.9.9.9" "8.8.8.8" (.ok ⟨200, "update body", none⟩) false)
    (sampleConfig "global") "8.8.8.8" _
    (changedWorld_reaches "global" "9.9.9.9" "8.8.8.8" _ false (Or.inl rfl)) (by decide)
    (sampleRecord "abc" "9.9.9.9") [] rfl (by decide) (by decide)
    ⟨200, "update body", none⟩ rfl (sampleUpdate false (sampleRecord "abc" "8.8.8.8")) rfl).2.1
    rfl
  ⟨⟨ht.2.1, ht.2.2⟩, ⟨hf.2.1, hf.2.2⟩⟩

/-- C8. When the run reaches the update step, that is, the first record's content
differs from the discovered IP and `http.NewRequest` builds the update
request, exactly one PATCH request is issued; its JSON body is the object
with exactly the keys type, name, content, ttl and proxied, holding "A", the
configured record name, the discovered IP, the configured TTL and the
configured proxy flag; and the whole request is determined by the
configuration, the discovered IP and the id of the first record, so no other
field of the fetched record influences it. -/
theorem patch_body_has_five_configured_fields (w : World) (config : Config)
    (currentIP : String) (records : APIResponse)
    (hreach : LookupDecodes w config currentIP records)
    (hcount : 1 ≤ records.ResultInfo.Count) (first : Result) (rest : List Result)
    (hres : records.Result = first :: rest) (hdiff : first.Content ≠ currentIP)
    (hurl : urlParse (updateUrlOf config first.ID) = true) :
    ∃ r, patches (main w).trace = [r] ∧
      r.Body = some [("type", .str "A"), ("name", .str config.RecordName),
        ("content", .str currentIP), ("ttl", .str config.Ttl),
        ("proxied", .bool config.Proxy)] ∧
      r = patchRequest config (authOf config) currentIP first.ID := by
  obtain ⟨_, before, hbefore, htrace⟩ := main_of_lookup w config currentIP records hreach
  obtain ⟨_, hafter, hcheck⟩ :=
    afterLookup_changed w config currentIP records hcount first rest hres hdiff
  refine ⟨patchRequest config (authOf config) currentIP first.ID, ?_, rfl, rfl⟩
  rw [htrace, hafter, patches_append, patches_append,
    patches_of_lookup config before hbefore]
  simp [patches, hcheck,
    requests_change_report_parsed w config (authOf config) currentIP first.ID hurl,
    patchRequest]

/-- Witness of C8: the round trip of the spec, record content "1.2.3.4" and
discovered IP "5.6.7.8". -/
theorem patch_body_has_five_configured_fields_witness :
    ∃ r, patches (main (changedWorld "global" "1.2.3.4" "5.6.7.8"
        (.ok ⟨200, "update body", none⟩) true)).trace = [r] ∧
      r.Body = some [("type", .str "A"), ("name", .str "home.example.com"),
        ("content", .str "5.6.7.8"), ("ttl", .str "3600"), ("proxied", .bool false)] ∧
      r = patchRequest (sampleConfig "global") (authOf (sampleConfig "global")) "5.6.7.8"
        (sampleRecord "abc" "1.2.3.4").ID :=
  patch_body_has_five_configured_fields
    (changedWorld "global" "1.2.3.4" "5.6.7.8" (.ok ⟨200, "update body", none⟩) true)
    (sampleConfig "global") "5.6.7.8" _
    (changedWorld_reaches "global" "1.2.3.4" "5.6.7.8" _ true (Or.inl rfl)) (by decide)
    (sampleRecord "abc" "1.2.3.4") [] rfl (by decide) (by decide)

/-- C9 (the code departs from it). Three runs that end in a run-time panic, status
2, instead of status 0 or 1: `http.Get` fails without a response and line 103
reads `ip.StatusCode` through the nil pointer; the listing reports count 1
with an empty result sequence and line 185 indexes `records.Result[0]`; the
PATCH fails without a response and line 222 reads `response.Body` through the
nil pointer. -/
theorem main_panics_on_nil_response_and_empty_result :
    ((main offlineWorld).result
        = .error (.panic "invalid memory address or nil pointer dereference") ∧
      (main offlineWorld).exitCode = 2) ∧
    ((main emptyResultWorld).result
        = .error (.panic "index out of range [0] with length 0") ∧
      (main emptyResultWorld).exitCode = 2) ∧
    ((main (changedWorld "global" "1.2.3.4" "5.6.7.8"
        (.failed "dial tcp: i/o timeout") true)).result
        = .error (.panic "invalid memory address or nil pointer dereference") ∧
      (main (changedWorld "global" "1.2.3.4" "5.6.7.8"
        (.failed "dial tcp: i/o timeout") true)).exitCode = 2) :=
  ⟨⟨rfl, rfl⟩, ⟨rfl, rfl⟩, ⟨rfl, rfl⟩⟩

/-- C10 (the code departs from it). When the run reaches the update step and the
PATCH call fails at the transport level with no response, the error is
logged and the process then panics on `response.Body` (status 2): the log
line is the last event, the body is never read or decoded, and the run does
not end through a decode failure or a false success flag. -/
theorem patch_transport_error_panics_before_decode (w : World) (config : Config)
    (currentIP : String) (records : APIResponse)
    (hreach : LookupDecodes w config currentIP records)
    (hcount : 1 ≤ records.ResultInfo.Count) (first : Result) (rest : List Result)
    (hres : records.Result = first :: rest) (hdiff : first.Content ≠ currentIP)
    (hurl : urlParse (updateUrlOf config first.ID) = true) (e : String)
    (hfail : w.Do (patchRequest config (authOf config) currentIP first.ID) = .failed e) :
    (main w).result
        = .error (.panic "invalid memory address or nil pointer dereference") ∧
      (main w).exitCode = 2 ∧
      ∃ before, (main w).trace
        = before ++ [.clientDo (patchRequest config (authOf config) currentIP first.ID),
            .log ("Failed to update records in Cloudflare: " ++ e ++ "\n")] := by
  obtain ⟨hresult, before, _, htrace⟩ := main_of_lookup w config currentIP records hreach
  obtain ⟨hres2, hafter, _⟩ :=
    afterLookup_changed w config currentIP records hcount first rest hres hdiff
  have hchange := changeRecord_failed w config (authOf config) currentIP first.ID e hurl hfail
  rw [hres2, hchange, Prog.bind_error] at hresult
  rw [hafter, hchange, Prog.bind_error] at htrace
  refine ⟨hresult, ?_, before ++ (checkRecords w config records).trace, ?_⟩
  · simp [Prog.exitCode, hresult]
  · rw [htrace, List.append_assoc]

/-- Instance of C10: the PATCH times out. -/
theorem patch_transport_error_panics_before_decode_witness :
    (main (changedWorld "token" "1.2.3.4" "5.6.7.8" (.failed "dial tcp: i/o timeout")
        true)).result
        = .error (.panic "invalid memory address or nil pointer dereference") ∧
      (main (changedWorld "token" "1.2.3.4" "5.6.7.8" (.failed "dial tcp: i/o timeout")
        true)).exitCode = 2 ∧
      ∃ before, (main (changedWorld "token" "1.2.3.4" "5.6.7.8"
          (.failed "dial tcp: i/o timeout") true)).trace
        = before ++ [.clientDo (patchRequest (sampleConfig "token")
              (authOf (sampleConfig "token")) "5.6.7.8" "abc"),
            .log ("Failed to update records in Cloudflare: " ++ "dial tcp: i/o timeout"
              ++ "\n")] :=
  patch_transport_error_panics_before_decode _ (sampleConfig "token") "5.6.7.8" _
    (changedWorld_reaches "token" "1.2.3.4" "5.6.7.8" _ true (Or.inr rfl)) (by decide)
    (sampleRecord "abc" "1.2.3.4") [] rfl (by decide) (by decide) "dial tcp: i/o timeout" rfl

end CfDdns
